import Mathlib

/-!
Verification development for the Generation Pipeline Core of the
happylearner storybook repository.  The definitions below are shallow
embeddings of the TypeScript source:

* `Json`, `lookupField`, the three `parse*Result` functions embed
  `web/lib/openai/ResultAssembler.ts` (zod schemas composed with the
  camelCase normalisation; the string-repair path of `safeParsePayload`
  is not needed by any theorem, so the embedding covers structured
  payloads, on which `safeParsePayload` is the identity).
* `claimJob`, `getJob`, `markJobCompleted`, `markJobFailed`,
  `incrementRetry` embed the worker DB helpers (`web/worker/db.ts`,
  tagged-sql statements over `generation_jobs`).
* `routeClaimedJob` and `handleFailure` embed
  `web/worker/jobHandler.ts` (`JobHandler.handle` routing inside the
  try block, and `JobHandler.handleFailure`); external providers are
  abstracted as value parameters.
* `StoryScriptRoute.POST` embeds
  `web/app/api/generation/story-script/route.ts`; the orchestrator and
  the persistence call are abstracted as `Except` outcomes, and the
  trace records whether they were invoked.
* `persistGenerationResult` and `pushJobsToUpstashRest` embed
  `web/lib/openai/OrchestrationPersistence.ts` (the pg transaction path,
  which emits the same rows as the drizzle test path, and the REST
  fallback segment of `pushJobsToUpstash`); database writes are
  reified as a list of `DbEffect`s.
-/

namespace HappyLearner

/-- Character-list test: does `l` start with `p`? (helper for substring
search used by the Upstash REST fallback's body check). -/
def charsStartWith : List Char → List Char → Bool
  | _, [] => true
  | [], _ :: _ => false
  | c :: cs, p :: ps => c = p && charsStartWith cs ps

/-- Character-list substring test. -/
def charsContain : List Char → List Char → Bool
  | [], pat => pat.isEmpty
  | c :: cs, pat => charsStartWith (c :: cs) pat || charsContain cs pat

/-- `containsSub s pat` holds when `pat` occurs as a contiguous
substring of `s` (JS `String.prototype.includes`). -/
def containsSub (s pat : String) : Bool :=
  charsContain s.data pat.data

/-- Lower-case a string character by character (the source applies
`toLowerCase()` to the REST response body before substring matching;
the patterns involved are ASCII). -/
def lowerAscii (s : String) : String :=
  ⟨s.data.map Char.toLower⟩

/-- The maximal non-whitespace runs of a character list (`acc` holds
the reversed characters of the run in progress). -/
def wordsOfAux : List Char → List Char → List String
  | [], [] => []
  | [], acc => [⟨acc.reverse⟩]
  | c :: cs, acc =>
    if c.isWhitespace then
      (if acc.isEmpty then [] else [⟨acc.reverse⟩]) ++ wordsOfAux cs []
    else wordsOfAux cs (c :: acc)

/-- `p.textEn.split(/\s+/).filter(Boolean).length` from
`OrchestrationPersistence.ts`: splitting on whitespace runs and
dropping empty pieces leaves exactly the maximal non-whitespace runs,
so the word count is their number. -/
def countWords (s : String) : Nat :=
  (wordsOfAux s.data []).length

/-- Hex-digit test for the UUID shape check. -/
def isHexDigitChar (c : Char) : Bool :=
  c.isDigit || ('a' ≤ c && c ≤ 'f') || ('A' ≤ c && c ≤ 'F')

/-- The UUID regex of `OrchestrationPersistence.ts`
(`/^[0-9a-fA-F]{8}-…{4}-…{4}-…{4}-…{12}$/`): 36 characters, hyphens at
positions 8, 13, 18, 23, hex digits elsewhere. -/
def isUuidString (s : String) : Bool :=
  s.data.length = 36 &&
    (s.data.enum.all fun ic =>
      if ic.1 = 8 ∨ ic.1 = 13 ∨ ic.1 = 18 ∨ ic.1 = 23 then ic.2 = '-'
      else isHexDigitChar ic.2)

/-- JSON values (numbers restricted to integers; every number appearing
in the claims is an integer page number). -/
inductive Json where
  | null : Json
  | bool (b : Bool) : Json
  | num (n : Int) : Json
  | str (s : String) : Json
  | arr (items : List Json) : Json
  | obj (fields : List (String × Json)) : Json

/-- First field with the given key, as JS property lookup on a plain
object parsed from JSON. -/
def lookupField : List (String × Json) → String → Option Json
  | [], _ => none
  | (k, v) :: rest, key => if k = key then some v else lookupField rest key

/-- `z.string()`: succeed only on JSON strings. -/
def asString : Json → Option String
  | .str s => some s
  | _ => none

/-- `z.number().int()`: succeed only on (integral) JSON numbers. -/
def asInt : Json → Option Int
  | .num n => some n
  | _ => none

/-- `z.string().min(1)` applied to an already-extracted string. -/
def nonEmptyStr : Option String → Option String
  | none => none
  | some s => if s = "" then none else some s

/-- `z.string().optional()` on a field: an absent field is accepted as
`none`; a present field must be a string (`null` is rejected). -/
def optString (fs : List (String × Json)) (k : String) : Option (Option String) :=
  match lookupField fs k with
  | none => some none
  | some j => (asString j).map some

/-- Validate every element of a JSON array with `f` (zod array element
validation): any element failure fails the whole array. -/
def parseListWith {α : Type} (f : Json → Option α) : List Json → Option (List α)
  | [] => some []
  | x :: xs =>
    match f x with
    | none => none
    | some a =>
      match parseListWith f xs with
      | none => none
      | some rest => some (a :: rest)

/-- Canonical story page (camelCase record produced by the assembler). -/
structure StoryScriptPage where
  pageNumber : Int
  textEn : String
  summaryEn : Option String
deriving DecidableEq

/-- Canonical story result. -/
structure StoryScriptResult where
  titleEn : String
  synopsisEn : Option String
  pages : List StoryScriptPage
deriving DecidableEq

/-- Canonical translation page. -/
structure TranslationPage where
  pageNumber : Int
  textZh : String
  notesZh : Option String
deriving DecidableEq

/-- Canonical translation result. -/
structure TranslationResult where
  titleZh : String
  synopsisZh : Option String
  pages : List TranslationPage
deriving DecidableEq

/-- Canonical vocabulary entry. -/
structure VocabularyEntry where
  word : String
  partOfSpeech : String
  definitionEn : String
  definitionZh : String
  exampleSentence : String
  exampleTranslation : String
  cefrLevel : Option String
deriving DecidableEq

/-- Canonical vocabulary result. -/
structure VocabularyResult where
  entries : List VocabularyEntry
deriving DecidableEq

/-- One page of the zod story schema:
`{page_number: z.number().int().min(1), text_en: z.string().min(1),
summary_en: z.string().optional()}`. -/
def parseStoryPage (j : Json) : Option StoryScriptPage :=
  match j with
  | .obj fs =>
    match (lookupField fs "page_number").bind asInt with
    | none => none
    | some pn =>
      if pn < 1 then none
      else
        match nonEmptyStr ((lookupField fs "text_en").bind asString) with
        | none => none
        | some te =>
          match optString fs "summary_en" with
          | none => none
          | some se => some ⟨pn, te, se⟩
  | _ => none

/-- `ResultAssembler.parseStoryResult` on a structured payload: the
`storySchema` (with its `.length(10, "Story must contain exactly 10
pages")` check on `pages`) composed with the camelCase mapping. -/
def parseStoryResult (j : Json) : Option StoryScriptResult :=
  match j with
  | .obj fs =>
    match nonEmptyStr ((lookupField fs "title_en").bind asString) with
    | none => none
    | some title =>
      match optString fs "synopsis_en" with
      | none => none
      | some syn =>
        match lookupField fs "pages" with
        | some (.arr xs) =>
          match parseListWith parseStoryPage xs with
          | none => none
          | some pages => if pages.length = 10 then some ⟨title, syn, pages⟩ else none
        | _ => none
  | _ => none

/-- One page of the zod translation schema:
`{page_number: z.number().int().min(1), text_zh: z.string().min(1),
notes_zh: z.string().optional()}`. -/
def parseTranslationPage (j : Json) : Option TranslationPage :=
  match j with
  | .obj fs =>
    match (lookupField fs "page_number").bind asInt with
    | none => none
    | some pn =>
      if pn < 1 then none
      else
        match nonEmptyStr ((lookupField fs "text_zh").bind asString) with
        | none => none
        | some tz =>
          match optString fs "notes_zh" with
          | none => none
          | some nz => some ⟨pn, tz, nz⟩
  | _ => none

/-- `ResultAssembler.parseTranslationResult` on a structured payload:
the `translationSchema` (no length constraint on `pages`) composed
with the camelCase mapping. -/
def parseTranslationResult (j : Json) : Option TranslationResult :=
  match j with
  | .obj fs =>
    match nonEmptyStr ((lookupField fs "title_zh").bind asString) with
    | none => none
    | some title =>
      match optString fs "synopsis_zh" with
      | none => none
      | some syn =>
        match lookupField fs "pages" with
        | some (.arr xs) =>
          match parseListWith parseTranslationPage xs with
          | none => none
          | some pages => some ⟨title, syn, pages⟩
        | _ => none
  | _ => none

/-- One entry of the zod vocabulary schema (all six text fields are
`z.string().min(1)`, `cefr_level` optional). -/
def parseVocabularyEntry (j : Json) : Option VocabularyEntry :=
  match j with
  | .obj fs =>
    match nonEmptyStr ((lookupField fs "word").bind asString) with
    | none => none
    | some w =>
      match nonEmptyStr ((lookupField fs "part_of_speech").bind asString) with
      | none => none
      | some pos =>
        match nonEmptyStr ((lookupField fs "definition_en").bind asString) with
        | none => none
        | some de =>
          match nonEmptyStr ((lookupField fs "definition_zh").bind asString) with
          | none => none
          | some dz =>
            match nonEmptyStr ((lookupField fs "example_sentence").bind asString) with
            | none => none
            | some es =>
              match nonEmptyStr ((lookupField fs "example_translation").bind asString) with
              | none => none
              | some et =>
                match optString fs "cefr_level" with
                | none => none
                | some cl => some ⟨w, pos, de, dz, es, et, cl⟩
  | _ => none

/-- `ResultAssembler.parseVocabularyResult` on a structured payload:
the `vocabularySchema` (with its `.length(10, "Vocabulary list must
contain exactly 10 items")` check on `entries`) composed with the
camelCase mapping. -/
def parseVocabularyResult (j : Json) : Option VocabularyResult :=
  match j with
  | .obj fs =>
    match lookupField fs "entries" with
    | some (.arr xs) =>
      match parseListWith parseVocabularyEntry xs with
      | none => none
      | some entries => if entries.length = 10 then some ⟨entries⟩ else none
    | _ => none
  | _ => none

/-- `generation_jobs.status` enum from the schema DDL. -/
inductive JobStatus where
  | pending
  | processing
  | completed
  | failed
deriving DecidableEq

/-- The columns of a `generation_jobs` row that the worker DB helpers
read or write. -/
structure JobRow where
  id : String
  story_id : String
  page_id : Option String
  job_type : String
  status : JobStatus
  retry_count : Nat
  payload : List (String × Json)
  result_uri : Option String
  failure_reason : Option String

/-- The `generation_jobs` table keyed by `id`. -/
def JobsDb : Type := String → Option JobRow

/-- `claimJob` from `web/worker/db.ts`: the conditional
`UPDATE … SET status = 'processing' WHERE id = jobId AND status =
'pending' RETURNING *`.  Returns the updated table and the claimed row
(`null` when the job is missing or not pending). -/
def claimJob (db : JobsDb) (jobId : String) : JobsDb × Option JobRow :=
  match db jobId with
  | none => (db, none)
  | some row =>
    if row.status = .pending then
      let claimed := { row with status := .processing }
      (fun k => if k = jobId then some claimed else db k, some claimed)
    else (db, none)

/-- `getJob` from `web/worker/db.ts`: plain `SELECT … WHERE id = jobId`. -/
def getJob (db : JobsDb) (jobId : String) : Option JobRow :=
  db jobId

/-- `markJobCompleted` from `web/worker/db.ts`:
`UPDATE … SET status = 'completed', result_uri = resultUri WHERE id =
jobId`. -/
def markJobCompleted (db : JobsDb) (jobId resultUri : String) : JobsDb :=
  fun k =>
    if k = jobId then
      (db k).map fun row => { row with status := .completed, result_uri := some resultUri }
    else db k

/-- `markJobFailed` from `web/worker/db.ts`:
`UPDATE … SET status = 'failed', failure_reason = reason WHERE id =
jobId`.  The reason string is passed through verbatim. -/
def markJobFailed (db : JobsDb) (jobId reason : String) : JobsDb :=
  fun k =>
    if k = jobId then
      (db k).map fun row => { row with status := .failed, failure_reason := some reason }
    else db k

/-- `incrementRetry` from `web/worker/db.ts`:
`UPDATE … SET retry_count = retry_count + 1 WHERE id = jobId`. -/
def incrementRetry (db : JobsDb) (jobId : String) : JobsDb :=
  fun k =>
    if k = jobId then
      (db k).map fun row => { row with retry_count := row.retry_count + 1 }
    else db k

/-- What the `JobHandler.handle` try block finally does to the claimed
job: `markJobCompleted` with a URI, or `markJobFailed` with a reason. -/
inductive JobAction where
  | completedWith (uri : String)
  | failedWith (reason : String)
deriving DecidableEq

/-- `payload["imageUris"] as string[] ?? []` of the video branch. -/
def jobImageUris (payload : List (String × Json)) : List String :=
  match lookupField payload "imageUris" with
  | some (.arr xs) => xs.filterMap asString
  | _ => []

/-- The `job_type` routing of `JobHandler.handle`
(`web/worker/jobHandler.ts`, try block): the branches for `image`,
`audio` and `video` in source order, every other type falling to
`markJobFailed` with an unknown-job-type reason.  The external
providers are abstracted: `imageAssetUri` / `audioAssetUri` is the
`uri` of the media-asset row produced by the corresponding handler (or
`none` when the runtime guard on `result.uri` fails), and
`videoUploadUri` is the blob-upload result of the composed video.
There is no branch for `story_script`, `translation` or `vocabulary`;
the handler never invokes the Story Orchestrator or the Persistence
Coordinator. -/
def routeClaimedJob (job : JobRow) (imageAssetUri audioAssetUri : Option String)
    (videoUploadUri : String) : JobAction :=
  if job.job_type = "image" then
    match imageAssetUri with
    | some uri => .completedWith uri
    | none => .failedWith "image provider returned no asset"
  else if job.job_type = "audio" then
    match audioAssetUri with
    | some uri => .completedWith uri
    | none => .failedWith "tts provider returned no asset"
  else if job.job_type = "video" then
    if (jobImageUris job.payload).isEmpty then .failedWith "video job missing imageUris"
    else .completedWith videoUploadUri
  else .failedWith ("unknown job type: " ++ job.job_type)

/-- The externally visible calls `JobHandler.handleFailure` makes.  The
`recordFailureEff` constructor stands for `ErrorHandler.recordFailure`
(the Error Recorder write to `failed_jobs`); it belongs to the
vocabulary so that its absence from a trace is expressible. -/
inductive FailureEffect where
  | incRetryEff (jobId : String)
  | markFailedEff (jobId reason : String)
  | recordFailureEff (jobId : String)
deriving DecidableEq

/-- `JobHandler.handleFailure` (`web/worker/jobHandler.ts`): increment
the retry count, re-read the job, and mark it failed with a
`temporary_error: ` prefix below the retry ceiling and a
`permanent_error: ` prefix otherwise.  The permanent branch carries
only a comment placeholder for notifications; no `recordFailureEff` is
ever emitted. -/
def handleFailure (db : JobsDb) (jobId msg : String) (maxRetries : Nat) :
    JobsDb × List FailureEffect :=
  let db1 := incrementRetry db jobId
  let retryCount := match getJob db1 jobId with
    | some job => job.retry_count
    | none => 0
  if retryCount < maxRetries then
    (markJobFailed db1 jobId ("temporary_error: " ++ msg),
     [.incRetryEff jobId, .markFailedEff jobId ("temporary_error: " ++ msg)])
  else
    (markJobFailed db1 jobId ("permanent_error: " ++ msg),
     [.incRetryEff jobId, .markFailedEff jobId ("permanent_error: " ++ msg)])

/-- JS property access `x.k`: a field of a plain object, `undefined`
otherwise. -/
def jsProp : Json → String → Option Json
  | .obj fs, k => lookupField fs k
  | _, _ => none

/-- JS truthiness of a possibly-absent JSON value (the route guards on
`!body.theme`). -/
def jsTruthy : Option Json → Bool
  | none => false
  | some .null => false
  | some (.bool b) => b
  | some (.num n) => n ≠ 0
  | some (.str s) => s ≠ ""
  | some (.arr _) => true
  | some (.obj _) => true

/-- The result of the orchestrator's `run` (token usage elided: no
claim depends on it). -/
structure OrchRunResult where
  story : StoryScriptResult
  translation : TranslationResult
  vocabulary : VocabularyResult
deriving DecidableEq

/-- The three response shapes of the story-script route:
`200 {ok:true, storyId, result, createdJobIds}`,
`400 {ok:false, error}`, `500 {ok:false, error}`. -/
inductive RouteResponse where
  | okResp (storyId : Json) (result : OrchRunResult) (createdJobIds : List String)
  | clientErr (error : String)
  | serverErr (error : String)

/-- Which of the route's two collaborators were invoked. -/
structure RouteTrace where
  orchInvoked : Bool
  persistInvoked : Bool
deriving DecidableEq

namespace StoryScriptRoute

/-- The `POST` handler of
`web/app/api/generation/story-script/route.ts`.  `parsedBody` is the
outcome of `request.json()` (`none` when the body is not valid JSON;
the handler's `.catch(() => ({}))` then substitutes an empty object).
The synchronous calls `orchestrator.run(payload)` and
`persistGenerationResult(…)` are abstracted as `Except` outcomes whose
errors reproduce the catch-all 500 path (`message || "unknown
error"`).  The returned trace records that the orchestrator — the AI
provider pipeline — runs before any response is produced on the happy
path, and that the handler performs no `generation_jobs` insert of its
own. -/
def POST (parsedBody : Option Json) (freshUuid : String)
    (orchOutcome : Except String OrchRunResult)
    (persistOutcome : Except String (List String)) : RouteResponse × RouteTrace :=
  let body := parsedBody.getD (Json.obj [])
  if jsTruthy (jsProp body "theme") then
    match orchOutcome with
    | .error e => (.serverErr (if e = "" then "unknown error" else e), ⟨true, false⟩)
    | .ok result =>
      match persistOutcome with
      | .error e => (.serverErr (if e = "" then "unknown error" else e), ⟨true, true⟩)
      | .ok ids =>
        let sid := match jsProp body "storyId" with
          | none => Json.str freshUuid
          | some .null => Json.str freshUuid
          | some v => v
        (.okResp sid result ids, ⟨true, true⟩)
  else (.clientErr "missing theme", ⟨false, false⟩)

end StoryScriptRoute

/-- Database and queue work performed by `persistGenerationResult`
inside its transaction (plus the best-effort queue push after commit). -/
inductive DbEffect where
  | insertStory (id titleEn titleZh theme status ageRange : String)
      (synopsisEn synopsisZh originalStoryId : Option String)
  | insertPage (storyId : String) (pageNumber : Int) (textEn textZh : String) (wordCount : Nat)
  | insertVocab (storyId word partOfSpeech definitionEn definitionZh exampleSentence exampleTranslation : String)
  | insertJob (storyId jobType status : String) (retryCount : Nat)
      (pageNumber : Int) (textEn : String) (textZh : Option String)
  | queuePush (jobIds : List String)
deriving DecidableEq

/-- The synthetic ids of the `SKIP_PERSISTENCE` short-circuit: for each
page in order, `{storyId}-image-{pageNumber}` then
`{storyId}-audio-{pageNumber}`. -/
def syntheticIds (storyId : String) : List StoryScriptPage → List String
  | [] => []
  | p :: ps =>
    (storyId ++ "-image-" ++ toString p.pageNumber) ::
    (storyId ++ "-audio-" ++ toString p.pageNumber) :: syntheticIds storyId ps

/-- The `story_pages` insert for one page:
`text_zh` is the translation page matched by `page_number`
(`?? ""` when absent) and `word_count` is the whitespace word count of
the English text. -/
def pageInsertEffect (dbStoryId : String) (translation : TranslationResult)
    (p : StoryScriptPage) : DbEffect :=
  let textZh := ((translation.pages.find? fun tp => tp.pageNumber = p.pageNumber).map
    fun tp => tp.textZh).getD ""
  .insertPage dbStoryId p.pageNumber p.textEn textZh (countWords p.textEn)

/-- The per-page `generation_jobs` inserts: one pending `image` job
with payload `{pageNumber, textEn}` and one pending `audio` job whose
payload additionally carries `textZh` (defaulted to `""` when no
translation page matches). -/
def mediaJobEffects (dbStoryId : String) (translation : TranslationResult) :
    List StoryScriptPage → List DbEffect
  | [] => []
  | p :: ps =>
    .insertJob dbStoryId "image" "pending" 0 p.pageNumber p.textEn none ::
    .insertJob dbStoryId "audio" "pending" 0 p.pageNumber p.textEn
      (some (((translation.pages.find? fun tp => tp.pageNumber = p.pageNumber).map
        fun tp => tp.textZh).getD "")) ::
    mediaJobEffects dbStoryId translation ps

/-- `persistGenerationResult` from
`web/lib/openai/OrchestrationPersistence.ts`.  `skipFlag` is
`process.env.SKIP_PERSISTENCE`; when it equals `"true"` the function
returns the synthetic ids and performs no effect at all.  Otherwise it
runs the single-transaction insert sequence of the pg path (the
drizzle test path emits the same rows): story row (status
`processing`, `title_zh` from the translation, age range `"0-6"`,
metadata with both synopses and — when `storyId` is not a UUID —
`originalStoryId`), the page rows, the vocabulary rows, then an image
and an audio job per page, and finally pushes the created ids to the
queue when Upstash is configured.  `freshUuid` stands for
`randomUUID()` and `mintId n` for the id the database returns for the
n-th created job. -/
def persistGenerationResult (skipFlag : Option String) (storyId theme : String)
    (story : StoryScriptResult) (translation : TranslationResult)
    (vocabulary : VocabularyResult) (freshUuid : String) (mintId : Nat → String)
    (upstashConfigured : Bool) : List DbEffect × List String :=
  if skipFlag = some "true" then
    ([], syntheticIds storyId story.pages)
  else
    let isUuid := isUuidString storyId
    let dbStoryId := if isUuid then storyId else freshUuid
    let storyEff : DbEffect :=
      .insertStory dbStoryId story.titleEn translation.titleZh theme "processing" "0-6"
        story.synopsisEn translation.synopsisZh (if isUuid then none else some storyId)
    let pageEffs := story.pages.map (pageInsertEffect dbStoryId translation)
    let vocabEffs := vocabulary.entries.map fun e =>
      DbEffect.insertVocab dbStoryId e.word e.partOfSpeech e.definitionEn e.definitionZh
        e.exampleSentence e.exampleTranslation
    let jobEffs := mediaJobEffects dbStoryId translation story.pages
    let ids := (List.range (2 * story.pages.length)).map mintId
    let pushEffs := if upstashConfigured then [DbEffect.queuePush ids] else []
    (storyEff :: pageEffs ++ vocabEffs ++ jobEffs ++ pushEffs, ids)

/-- A REST response as observed by `postJson` in `pushJobsToUpstash`:
HTTP status (0 for a thrown fetch) and body text.  `ok` is the fetch
semantics `200 ≤ status < 300`. -/
structure RestResp where
  status : Nat
  bodyText : String
deriving DecidableEq

/-- `Response.ok` of the fetch API. -/
def respOk (r : RestResp) : Bool :=
  decide (200 ≤ r.status) && decide (r.status < 300)

/-- The two POST body shapes the REST fallback can send. -/
inductive PushBody where
  | queuesStyle (queue : String) (messages : List String)
  | commandStyle (queue : String) (messages : List String)
deriving DecidableEq

/-- Outcome of the REST fallback: normal return or a raised error. -/
inductive PushResult where
  | success
  | errorRaised (msg : String)
deriving DecidableEq

/-- `true` exactly on `errorRaised`. -/
def PushResult.isErr : PushResult → Bool
  | .success => false
  | .errorRaised _ => true

/-- The parse-error sniff of `pushJobsToUpstash`: lowercase the body
and look for the three substrings. -/
def looksLikeParseErrorBody (body : String) : Bool :=
  let lower := lowerAscii body
  containsSub lower "failed to parse" || containsSub lower "parse error" ||
    containsSub lower "err failed to parse command"

/-- The REST fallback segment of `pushJobsToUpstash`
(`web/lib/openai/OrchestrationPersistence.ts`): first a queues-style
POST `{queue, messages}`; on `ok` return; on 401/403 raise; on a
parse-looking body or status 400/422/0 retry once with the Redis
command body `{command: ["RPUSH", queue, ...messages]}` and return or
raise on its outcome; on any other failure raise without a retry.
`resp1`/`resp2` are the responses the endpoint would give to the first
and second request; the first component of the result lists the
requests actually sent, in order. -/
def pushJobsToUpstashRest (queue : String) (messages : List String)
    (resp1 resp2 : RestResp) : List PushBody × PushResult :=
  if respOk resp1 then
    ([.queuesStyle queue messages], .success)
  else if resp1.status = 401 ∨ resp1.status = 403 then
    ([.queuesStyle queue messages],
     .errorRaised ("[OrchestrationPersistence] REST (queue/messages) returned auth error " ++
       toString resp1.status ++ ": " ++ resp1.bodyText))
  else if looksLikeParseErrorBody resp1.bodyText || resp1.status = 400 ||
      resp1.status = 422 || resp1.status = 0 then
    if respOk resp2 then
      ([.queuesStyle queue messages, .commandStyle queue messages], .success)
    else
      ([.queuesStyle queue messages, .commandStyle queue messages],
       .errorRaised ("Upstash REST command push failed " ++ toString resp2.status ++ ": " ++
         resp2.bodyText))
  else
    ([.queuesStyle queue messages],
     .errorRaised ("[OrchestrationPersistence] REST (queue/messages) failed and command fallback not attempted: " ++
       toString resp1.status ++ " " ++ resp1.bodyText))

/-- A sample pending `image` job row. -/
def row0 : JobRow :=
  ⟨"job-1", "story-1", none, "image", .pending, 0, [], none, none⟩

/-- A one-row `generation_jobs` table holding `row0`. -/
def jobsDb0 : JobsDb :=
  fun k => if k = "job-1" then some row0 else none

/-- A claimed `story_script` job row as the worker would see it. -/
def storyScriptJobRow : JobRow :=
  ⟨"job-ss", "story-1", none, "story_script", .processing, 0,
   [("type", .str "story_script")], none, none⟩

/-- A 513-character failure reason. -/
def longReason : String := ⟨List.replicate 513 'a'⟩

/-- Truncation to 512 characters, as the spec sentence for `FailJob`
words it (this definition follows the spec, not the source; the source
has no truncation). -/
def truncateTo512 (s : String) : String := ⟨s.data.take 512⟩

/-- C4: `claimJob` is the conditional-update compare-and-set: on a
pending row it flips the status to processing and returns the updated
row, and a second claim of the same job then returns nil; on a missing
row or a non-pending row it returns nil. -/
theorem claimJob_atomicCas (db : JobsDb) (jobId : String) :
    (∀ row, db jobId = some row → row.status = .pending →
      (claimJob db jobId).2 = some { row with status := .processing } ∧
      (claimJob (claimJob db jobId).1 jobId).2 = none) ∧
    (db jobId = none → (claimJob db jobId).2 = none) ∧
    (∀ row, db jobId = some row → row.status ≠ .pending →
      (claimJob db jobId).2 = none) := by
  refine ⟨?_, ?_, ?_⟩
  · intro row h hp
    constructor
    · simp [claimJob, h, hp]
    · simp [claimJob, h, hp]
  · intro h
    simp [claimJob, h]
  · intro row h hp
    simp [claimJob, h, hp]

/-- Witness for `claimJob_atomicCas` at the one-row table `jobsDb0`. -/
theorem claimJob_atomicCas_witness :
    (claimJob jobsDb0 "job-1").2 = some { row0 with status := .processing } ∧
    (claimJob (claimJob jobsDb0 "job-1").1 "job-1").2 = none ∧
    (claimJob jobsDb0 "job-404").2 = none :=
  ⟨((claimJob_atomicCas jobsDb0 "job-1").1 row0 rfl rfl).1,
   ((claimJob_atomicCas jobsDb0 "job-1").1 row0 rfl rfl).2,
   (claimJob_atomicCas jobsDb0 "job-404").2.1 rfl⟩

/-- C7 counterexample: `markJobFailed` stores a 513-character reason
verbatim, so the recorded reason is not the 512-character truncation
the claim describes. -/
theorem markJobFailed_noTruncation_counterexample :
    ((markJobFailed jobsDb0 "job-1" longReason "job-1").bind fun r => r.failure_reason) =
      some longReason ∧
    longReason ≠ truncateTo512 longReason := by
  constructor
  · rfl
  · intro h
    have hlen := congrArg (fun s : String => s.data.length) h
    have hlen2 : (List.replicate 513 'a').length = ((List.replicate 513 'a').take 512).length :=
      hlen
    rw [List.length_replicate, List.length_take, List.length_replicate] at hlen2
    omega

/-- C7 as amended: `markJobFailed` sets the status to failed and
records the reason exactly as given; no truncation is applied. -/
theorem markJobFailed_recordsVerbatim (db : JobsDb) (jobId reason : String) (row : JobRow)
    (h : db jobId = some row) :
    markJobFailed db jobId reason jobId =
      some { row with status := .failed, failure_reason := some reason } := by
  simp [markJobFailed, h]

/-- Witness for `markJobFailed_recordsVerbatim`. -/
theorem markJobFailed_recordsVerbatim_witness :
    markJobFailed jobsDb0 "job-1" "boom" "job-1" =
      some { row0 with status := .failed, failure_reason := some "boom" } :=
  markJobFailed_recordsVerbatim jobsDb0 "job-1" "boom" row0 rfl

/-- C1: the worker's routing marks every claimed job whose type is
outside `image`/`audio`/`video` — including `story_script` — failed
with an unknown-job-type reason; in particular a `story_script` job is
never routed to the Story Orchestrator (the routing function has no
such branch). -/
theorem handle_unknownJobType (job : JobRow) (imageAssetUri audioAssetUri : Option String)
    (videoUploadUri : String) :
    (job.job_type = "story_script" →
      routeClaimedJob job imageAssetUri audioAssetUri videoUploadUri =
        .failedWith "unknown job type: story_script") ∧
    (job.job_type ≠ "story_script" → job.job_type ≠ "image" → job.job_type ≠ "audio" →
      job.job_type ≠ "video" →
      routeClaimedJob job imageAssetUri audioAssetUri videoUploadUri =
        .failedWith ("unknown job type: " ++ job.job_type)) := by
  constructor
  · intro h
    simp only [routeClaimedJob, h]
    rfl
  · intro _ h2 h3 h4
    simp [routeClaimedJob, h2, h3, h4]

/-- Witness for `handle_unknownJobType`: a claimed `story_script` job
and a claimed `translation` job are both marked failed as unknown. -/
theorem handle_unknownJobType_witness :
    routeClaimedJob storyScriptJobRow none none "up" =
      .failedWith "unknown job type: story_script" ∧
    routeClaimedJob { storyScriptJobRow with job_type := "translation" } none none "up" =
      .failedWith ("unknown job type: " ++ "translation") :=
  ⟨(handle_unknownJobType storyScriptJobRow none none "up").1 rfl,
   (handle_unknownJobType { storyScriptJobRow with job_type := "translation" } none none "up").2
     (by decide) (by decide) (by decide) (by decide)⟩

/-- C3: `handleFailure` increments the retry count and re-reads it;
below the ceiling it marks the job failed with a `temporary_error: `
prefix, and at or above the ceiling it marks it failed with a
`permanent_error: ` prefix — but its effect trace never contains a
`recordFailureEff`, i.e. the Error Recorder is not notified and no
`failed_jobs` row is written. -/
theorem handleFailure_permanentNoRecord (db : JobsDb) (jobId msg : String) (maxRetries : Nat)
    (row : JobRow) (h : db jobId = some row) :
    (row.retry_count + 1 < maxRetries →
      (handleFailure db jobId msg maxRetries).2 =
        [.incRetryEff jobId, .markFailedEff jobId ("temporary_error: " ++ msg)]) ∧
    (¬ row.retry_count + 1 < maxRetries →
      (handleFailure db jobId msg maxRetries).2 =
        [.incRetryEff jobId, .markFailedEff jobId ("permanent_error: " ++ msg)] ∧
      FailureEffect.recordFailureEff jobId ∉ (handleFailure db jobId msg maxRetries).2) := by
  constructor
  · intro hlt
    simp [handleFailure, getJob, incrementRetry, h, hlt]
  · intro hge
    constructor
    · simp [handleFailure, getJob, incrementRetry, h, hge]
    · simp [handleFailure, getJob, incrementRetry, h, hge]

/-- Witness for `handleFailure_permanentNoRecord` on `jobsDb0` (retry
count 0): ceiling 3 gives the temporary prefix, ceiling 1 gives the
permanent prefix with no Error Recorder notification. -/
theorem handleFailure_permanentNoRecord_witness :
    (handleFailure jobsDb0 "job-1" "boom" 3).2 =
      [.incRetryEff "job-1", .markFailedEff "job-1" ("temporary_error: " ++ "boom")] ∧
    (handleFailure jobsDb0 "job-1" "boom" 1).2 =
      [.incRetryEff "job-1", .markFailedEff "job-1" ("permanent_error: " ++ "boom")] ∧
    FailureEffect.recordFailureEff "job-1" ∉ (handleFailure jobsDb0 "job-1" "boom" 1).2 :=
  ⟨(handleFailure_permanentNoRecord jobsDb0 "job-1" "boom" 3 row0 rfl).1 (by decide),
   ((handleFailure_permanentNoRecord jobsDb0 "job-1" "boom" 1 row0 rfl).2 (by decide)).1,
   ((handleFailure_permanentNoRecord jobsDb0 "job-1" "boom" 1 row0 rfl).2 (by decide)).2⟩

/-- Sample orchestrator output used to evaluate the route. -/
def demoOrchResult : OrchRunResult :=
  ⟨⟨"The Friendly Dragon", some "A dragon makes friends.", []⟩,
   ⟨"友善的龍", none, []⟩, ⟨[]⟩⟩

/-- C2: evaluated on the dispatch request `{theme: "A friendly
dragon"}`, the shipped route runs the orchestrator (AI provider) and
the persistence coordinator synchronously (`RouteTrace` is `⟨true,
true⟩`) and returns the 200 body `{ok, storyId, result,
createdJobIds}` — there is no `jobIds` field and no pending
`story_script` job is created (the handler performs no
`generation_jobs` insert of its own). -/
theorem route_runsOrchestratorSynchronously :
    StoryScriptRoute.POST (some (Json.obj [("theme", Json.str "A friendly dragon")]))
        "11111111-2222-3333-4444-555555555555" (.ok demoOrchResult)
        (.ok ["media-job-1", "media-job-2"]) =
      (.okResp (Json.str "11111111-2222-3333-4444-555555555555") demoOrchResult
        ["media-job-1", "media-job-2"], ⟨true, true⟩) := by
  rfl

/-- C9: when the request body fails to parse as JSON, the route treats
it as an empty object and answers 400 `{ok:false, error:"missing
theme"}` without invoking the orchestrator or persistence — never a
500. -/
theorem route_invalidJsonGives400 (freshUuid : String)
    (orchOutcome : Except String OrchRunResult)
    (persistOutcome : Except String (List String)) :
    StoryScriptRoute.POST none freshUuid orchOutcome persistOutcome =
      (.clientErr "missing theme", ⟨false, false⟩) := by
  rfl

/-- Element-wise validation preserves length. -/
theorem parseListWith_length {α : Type} (f : Json → Option α) :
    ∀ xs ys, parseListWith f xs = some ys → ys.length = xs.length := by
  intro xs
  induction xs with
  | nil =>
    intro ys h
    simp only [parseListWith, Option.some.injEq] at h
    subst h
    rfl
  | cons x xs ih =>
    intro ys h
    simp only [parseListWith] at h
    cases hf : f x with
    | none => simp [hf] at h
    | some a =>
      simp only [hf] at h
      cases hr : parseListWith f xs with
      | none => simp [hr] at h
      | some rest =>
        simp only [hr, Option.some.injEq] at h
        subst h
        simp [ih rest hr]

/-- Element-wise validation fails as soon as one element fails. -/
theorem parseListWith_none_of_mem {α : Type} (f : Json → Option α) :
    ∀ xs x, x ∈ xs → f x = none → parseListWith f xs = none := by
  intro xs
  induction xs with
  | nil =>
    intro x hx
    cases hx
  | cons y ys ih =>
    intro x hx hf
    cases hx with
    | head => simp [parseListWith, hf]
    | tail _ hmem =>
      simp only [parseListWith]
      cases hfy : f y with
      | none => rfl
      | some a => simp [ih x hmem hf]

/-- A translation page whose `text_zh` is the empty string fails the
`z.string().min(1)` check. -/
theorem parseTranslationPage_emptyText (gs : List (String × Json))
    (h : lookupField gs "text_zh" = some (.str "")) :
    parseTranslationPage (.obj gs) = none := by
  cases hpn : (lookupField gs "page_number").bind asInt with
  | none => simp [parseTranslationPage, hpn]
  | some pn =>
    simp only [parseTranslationPage, hpn]
    simp [h, nonEmptyStr, asString, Option.bind]

/-- A syntactically valid translation payload with `n` pages. -/
def translationPayloadOfSize (n : Nat) : Json :=
  .obj [("title_zh", .str "翻譯標題"),
        ("pages", .arr ((List.range n).map fun i =>
          .obj [("page_number", .num (Int.ofNat i + 1)), ("text_zh", .str "頁面")]))]

/-- Each generated page of `translationPayloadOfSize` validates. -/
theorem parseTranslationPage_generated (i : Nat) :
    parseTranslationPage
        (Json.obj [("page_number", Json.num (Int.ofNat i + 1)), ("text_zh", Json.str "頁面")]) =
      some ⟨Int.ofNat i + 1, "頁面", none⟩ := by
  have h0 : (0 : Int) ≤ Int.ofNat i := Int.ofNat_nonneg i
  have h1 : ¬ ((Int.ofNat i + 1 : Int) < 1) := by omega
  simp [parseTranslationPage, lookupField, asInt, asString, nonEmptyStr, optString,
    Option.bind, h1]

/-- The generated page lists validate wholesale. -/
theorem parseListWith_generatedPages (l : List Nat) :
    parseListWith parseTranslationPage (l.map fun i =>
        Json.obj [("page_number", Json.num (Int.ofNat i + 1)), ("text_zh", Json.str "頁面")]) =
      some (l.map fun i => (⟨Int.ofNat i + 1, "頁面", none⟩ : TranslationPage)) := by
  induction l with
  | nil => rfl
  | cons i l ih =>
    simp only [List.map_cons, parseListWith, parseTranslationPage_generated, ih]

/-- C5: the story stage rejects any payload whose `pages` array has a
length other than 10; the vocabulary stage rejects any payload whose
`entries` array has a length other than 10; the translation stage
fails whenever some provided `text_zh` is the empty string, yet
accepts well-formed payloads with any number of pages. -/
theorem resultAssembler_validation :
    (∀ fs xs, lookupField fs "pages" = some (Json.arr xs) → xs.length ≠ 10 →
      parseStoryResult (Json.obj fs) = none) ∧
    (∀ fs xs, lookupField fs "entries" = some (Json.arr xs) → xs.length ≠ 10 →
      parseVocabularyResult (Json.obj fs) = none) ∧
    (∀ fs xs gs, lookupField fs "pages" = some (Json.arr xs) → Json.obj gs ∈ xs →
      lookupField gs "text_zh" = some (Json.str "") →
      parseTranslationResult (Json.obj fs) = none) ∧
    (∀ n : Nat, parseTranslationResult (translationPayloadOfSize n) =
      some ⟨"翻譯標題", none,
        (List.range n).map fun i => ⟨Int.ofNat i + 1, "頁面", none⟩⟩) := by
  refine ⟨?_, ?_, ?_, ?_⟩
  · intro fs xs hpages hlen
    simp only [parseStoryResult, hpages]
    cases ht : nonEmptyStr ((lookupField fs "title_en").bind asString) with
    | none => rfl
    | some title =>
      simp only
      cases hs : optString fs "synopsis_en" with
      | none => rfl
      | some syn =>
        simp only
        cases hp : parseListWith parseStoryPage xs with
        | none => rfl
        | some pages =>
          have hl := parseListWith_length parseStoryPage xs pages hp
          simp only
          rw [if_neg (by omega)]
  · intro fs xs hentries hlen
    simp only [parseVocabularyResult, hentries]
    cases hp : parseListWith parseVocabularyEntry xs with
    | none => rfl
    | some entries =>
      have hl := parseListWith_length parseVocabularyEntry xs entries hp
      simp only
      rw [if_neg (by omega)]
  · intro fs xs gs hpages hmem hempty
    have hnone : parseListWith parseTranslationPage xs = none :=
      parseListWith_none_of_mem parseTranslationPage xs _ hmem
        (parseTranslationPage_emptyText gs hempty)
    simp only [parseTranslationResult, hpages, hnone]
    cases ht : nonEmptyStr ((lookupField fs "title_zh").bind asString) with
    | none => rfl
    | some title =>
      simp only
      cases hs : optString fs "synopsis_zh" with
      | none => rfl
      | some syn => rfl
  · intro n
    have hp := parseListWith_generatedPages (List.range n)
    simp only [Int.ofNat_eq_natCast] at hp
    simp [translationPayloadOfSize, parseTranslationResult, lookupField,
      asString, nonEmptyStr, optString, hp]

/-- Witness for `resultAssembler_validation`: a zero-page story
payload and a zero-entry vocabulary payload are rejected, a
translation payload with an empty `text_zh` is rejected, and a
three-page well-formed translation payload is accepted. -/
theorem resultAssembler_validation_witness :
    parseStoryResult (Json.obj [("pages", Json.arr [])]) = none ∧
    parseVocabularyResult (Json.obj [("entries", Json.arr [])]) = none ∧
    parseTranslationResult (Json.obj [("title_zh", Json.str "t"),
      ("pages", Json.arr [Json.obj [("text_zh", Json.str "")]])]) = none ∧
    parseTranslationResult (translationPayloadOfSize 3) =
      some ⟨"翻譯標題", none,
        (List.range 3).map fun i => ⟨Int.ofNat i + 1, "頁面", none⟩⟩ :=
  ⟨resultAssembler_validation.1 [("pages", Json.arr [])] [] rfl (by decide),
   resultAssembler_validation.2.1 [("entries", Json.arr [])] [] rfl (by decide),
   resultAssembler_validation.2.2.1 [("title_zh", Json.str "t"),
      ("pages", Json.arr [Json.obj [("text_zh", Json.str "")]])]
     [Json.obj [("text_zh", Json.str "")]] [("text_zh", Json.str "")]
     rfl (List.mem_cons_self _ _) rfl,
   resultAssembler_validation.2.2.2 3⟩

/-- C6: the REST fallback sends the queues-style body first and (a)
returns on success; (b) aborts with an error and no second request on
401/403; (c) on a parse-looking body or status 400/422/0 retries
exactly once with the Redis-command-style body, succeeding exactly
when the retry response is ok; (d) raises without a retry on any other
failing status. -/
theorem pushRest_fallbackPolicy (queue : String) (messages : List String)
    (resp1 resp2 : RestResp) :
    (respOk resp1 = true →
      pushJobsToUpstashRest queue messages resp1 resp2 =
        ([.queuesStyle queue messages], .success)) ∧
    (resp1.status = 401 ∨ resp1.status = 403 →
      (pushJobsToUpstashRest queue messages resp1 resp2).1 = [.queuesStyle queue messages] ∧
      (pushJobsToUpstashRest queue messages resp1 resp2).2.isErr = true) ∧
    (respOk resp1 = false → ¬ (resp1.status = 401 ∨ resp1.status = 403) →
      (looksLikeParseErrorBody resp1.bodyText = true ∨ resp1.status = 400 ∨
        resp1.status = 422 ∨ resp1.status = 0) →
      (pushJobsToUpstashRest queue messages resp1 resp2).1 =
        [.queuesStyle queue messages, .commandStyle queue messages] ∧
      ((pushJobsToUpstashRest queue messages resp1 resp2).2 = .success ↔
        respOk resp2 = true)) ∧
    (respOk resp1 = false → ¬ (resp1.status = 401 ∨ resp1.status = 403) →
      looksLikeParseErrorBody resp1.bodyText = false → resp1.status ≠ 400 →
      resp1.status ≠ 422 → resp1.status ≠ 0 →
      (pushJobsToUpstashRest queue messages resp1 resp2).1 = [.queuesStyle queue messages] ∧
      (pushJobsToUpstashRest queue messages resp1 resp2).2.isErr = true) := by
  refine ⟨?_, ?_, ?_, ?_⟩
  · intro h
    simp [pushJobsToUpstashRest, h]
  · intro h
    have hok : respOk resp1 = false := by
      rcases h with h | h <;> simp [respOk, h]
    rcases h with h | h <;>
      simp [pushJobsToUpstashRest, hok, h, PushResult.isErr]
  · intro hok hauth hpe
    have hcond : (looksLikeParseErrorBody resp1.bodyText || resp1.status = 400 ||
        resp1.status = 422 || resp1.status = 0) = true := by
      rcases hpe with h | h | h | h <;> simp [h]
    cases hr2 : respOk resp2 with
    | true => simp [pushJobsToUpstashRest, hok, hauth, hcond, hr2]
    | false => simp [pushJobsToUpstashRest, hok, hauth, hcond, hr2]
  · intro hok hauth hlp h400 h422 h0
    simp [pushJobsToUpstashRest, hok, hauth, hlp, h400, h422, h0, PushResult.isErr]

/-- Witness for `pushRest_fallbackPolicy` at four concrete responses:
200 succeeds with one request, 401 aborts with one request, 400 with a
parse-error body retries once command-style and succeeds, 503 raises
with one request. -/
theorem pushRest_fallbackPolicy_witness :
    pushJobsToUpstashRest "generation_jobs" ["m1"] ⟨200, "OK"⟩ ⟨0, "x"⟩ =
      ([.queuesStyle "generation_jobs" ["m1"]], .success) ∧
    (pushJobsToUpstashRest "generation_jobs" ["m1"] ⟨401, "denied"⟩ ⟨200, "ok"⟩).1 =
      [.queuesStyle "generation_jobs" ["m1"]] ∧
    (pushJobsToUpstashRest "generation_jobs" ["m1"]
        ⟨400, "ERR failed to parse command"⟩ ⟨200, "ok"⟩).1 =
      [.queuesStyle "generation_jobs" ["m1"], .commandStyle "generation_jobs" ["m1"]] ∧
    (pushJobsToUpstashRest "generation_jobs" ["m1"] ⟨503, "server busy"⟩ ⟨200, "ok"⟩).1 =
      [.queuesStyle "generation_jobs" ["m1"]] :=
  ⟨(pushRest_fallbackPolicy "generation_jobs" ["m1"] ⟨200, "OK"⟩ ⟨0, "x"⟩).1 (by decide),
   ((pushRest_fallbackPolicy "generation_jobs" ["m1"] ⟨401, "denied"⟩ ⟨200, "ok"⟩).2.1
     (Or.inl rfl)).1,
   ((pushRest_fallbackPolicy "generation_jobs" ["m1"]
       ⟨400, "ERR failed to parse command"⟩ ⟨200, "ok"⟩).2.2.1
     (by decide) (by decide) (Or.inr (Or.inl rfl))).1,
   ((pushRest_fallbackPolicy "generation_jobs" ["m1"] ⟨503, "server busy"⟩ ⟨200, "ok"⟩).2.2.2
     (by decide) (by decide) (by decide) (by decide) (by decide) (by decide)).1⟩

/-- The skip short-circuit yields two ids per page. -/
theorem syntheticIds_length (sid : String) :
    ∀ ps : List StoryScriptPage, (syntheticIds sid ps).length = 2 * ps.length := by
  intro ps
  induction ps with
  | nil => rfl
  | cons p ps ih =>
    simp only [syntheticIds, List.length_cons, ih]
    omega

/-- Positions `2*i` and `2*i+1` of the synthetic id list belong to the
`i`-th page: image first, audio second. -/
theorem syntheticIds_get (sid : String) :
    ∀ (ps : List StoryScriptPage) (i : Nat),
      (syntheticIds sid ps).get? (2 * i) =
        (ps.get? i).map (fun p => sid ++ "-image-" ++ toString p.pageNumber) ∧
      (syntheticIds sid ps).get? (2 * i + 1) =
        (ps.get? i).map (fun p => sid ++ "-audio-" ++ toString p.pageNumber) := by
  intro ps
  induction ps with
  | nil => intro i; simp [syntheticIds]
  | cons p ps ih =>
    intro i
    cases i with
    | zero => simp [syntheticIds]
    | succ j =>
      have h2 : 2 * (j + 1) = 2 * j + 1 + 1 := by omega
      rw [h2]
      simp only [syntheticIds, List.get?_cons_succ]
      exact ih j

/-- C8: with `SKIP_PERSISTENCE=true` and a 10-page story, the
coordinator performs no effect at all and returns exactly 20 synthetic
job ids, in page order with the image id before the audio id for each
page, each of the shape `{storyRef}-{image|audio}-{pageNumber}`. -/
theorem persistGenerationResult_skipShortCircuit
    (storyId theme : String) (story : StoryScriptResult) (translation : TranslationResult)
    (vocabulary : VocabularyResult) (freshUuid : String) (mintId : Nat → String)
    (upstashConfigured : Bool) (h10 : story.pages.length = 10) :
    (persistGenerationResult (some "true") storyId theme story translation vocabulary
      freshUuid mintId upstashConfigured).1 = [] ∧
    (persistGenerationResult (some "true") storyId theme story translation vocabulary
      freshUuid mintId upstashConfigured).2.length = 20 ∧
    ∀ i p, story.pages.get? i = some p →
      (persistGenerationResult (some "true") storyId theme story translation vocabulary
        freshUuid mintId upstashConfigured).2.get? (2 * i) =
          some (storyId ++ "-image-" ++ toString p.pageNumber) ∧
      (persistGenerationResult (some "true") storyId theme story translation vocabulary
        freshUuid mintId upstashConfigured).2.get? (2 * i + 1) =
          some (storyId ++ "-audio-" ++ toString p.pageNumber) := by
  have hids : (persistGenerationResult (some "true") storyId theme story translation vocabulary
      freshUuid mintId upstashConfigured).2 = syntheticIds storyId story.pages := rfl
  refine ⟨rfl, ?_, ?_⟩
  · rw [hids, syntheticIds_length, h10]
  · intro i p hp
    have h := syntheticIds_get storyId story.pages i
    exact ⟨by rw [hids, h.1, hp]; rfl, by rw [hids, h.2, hp]; rfl⟩

/-- A concrete 10-page story used to witness the skip short-circuit. -/
def demoStory10 : StoryScriptResult :=
  ⟨"Ten Pages", none, (List.range 10).map fun i => ⟨Int.ofNat i + 1, "page text", none⟩⟩

/-- Witness for `persistGenerationResult_skipShortCircuit` on a
concrete 10-page story. -/
theorem persistGenerationResult_skipShortCircuit_witness :
    (persistGenerationResult (some "true") "story-7" "theme" demoStory10
      ⟨"t", none, []⟩ ⟨[]⟩ "uuid-x" (fun n => toString n) false).1 = [] ∧
    (persistGenerationResult (some "true") "story-7" "theme" demoStory10
      ⟨"t", none, []⟩ ⟨[]⟩ "uuid-x" (fun n => toString n) false).2.length = 20 ∧
    (persistGenerationResult (some "true") "story-7" "theme" demoStory10
      ⟨"t", none, []⟩ ⟨[]⟩ "uuid-x" (fun n => toString n) false).2.get? 0 =
        some ("story-7" ++ "-image-" ++ toString (1 : Int)) ∧
    (persistGenerationResult (some "true") "story-7" "theme" demoStory10
      ⟨"t", none, []⟩ ⟨[]⟩ "uuid-x" (fun n => toString n) false).2.get? 1 =
        some ("story-7" ++ "-audio-" ++ toString (1 : Int)) :=
  ⟨(persistGenerationResult_skipShortCircuit "story-7" "theme" demoStory10
      ⟨"t", none, []⟩ ⟨[]⟩ "uuid-x" (fun n => toString n) false (by rfl)).1,
   (persistGenerationResult_skipShortCircuit "story-7" "theme" demoStory10
      ⟨"t", none, []⟩ ⟨[]⟩ "uuid-x" (fun n => toString n) false (by rfl)).2.1,
   ((persistGenerationResult_skipShortCircuit "story-7" "theme" demoStory10
      ⟨"t", none, []⟩ ⟨[]⟩ "uuid-x" (fun n => toString n) false (by rfl)).2.2 0
      ⟨Int.ofNat 0 + 1, "page text", none⟩ (by rfl)).1,
   ((persistGenerationResult_skipShortCircuit "story-7" "theme" demoStory10
      ⟨"t", none, []⟩ ⟨[]⟩ "uuid-x" (fun n => toString n) false (by rfl)).2.2 0
      ⟨Int.ofNat 0 + 1, "page text", none⟩ (by rfl)).2⟩

/-- The audio job of every page appears among the media job inserts. -/
theorem mediaJobEffects_audioMem (dbStoryId : String) (translation : TranslationResult) :
    ∀ (ps : List StoryScriptPage) (p : StoryScriptPage), p ∈ ps →
      DbEffect.insertJob dbStoryId "audio" "pending" 0 p.pageNumber p.textEn
          (some (((translation.pages.find? fun tp => tp.pageNumber = p.pageNumber).map
            fun tp => tp.textZh).getD "")) ∈
        mediaJobEffects dbStoryId translation ps := by
  intro ps
  induction ps with
  | nil =>
    intro p hp
    cases hp
  | cons q ps ih =>
    intro p hp
    cases hp with
    | head => exact List.mem_cons_of_mem _ (List.mem_cons_self _ _)
    | tail _ hmem => exact List.mem_cons_of_mem _ (List.mem_cons_of_mem _ (ih p hmem))

/-- Outside the skip short-circuit, the effect list of the coordinator
is the story insert followed by the page inserts, the vocabulary
inserts, the media job inserts, and the optional queue push. -/
theorem persistGenerationResult_eq (skipFlag : Option String) (storyId theme : String)
    (story : StoryScriptResult) (translation : TranslationResult)
    (vocabulary : VocabularyResult) (freshUuid : String) (mintId : Nat → String)
    (upstashConfigured : Bool) (hskip : skipFlag ≠ some "true") :
    (persistGenerationResult skipFlag storyId theme story translation vocabulary
      freshUuid mintId upstashConfigured).1 =
      DbEffect.insertStory (if isUuidString storyId then storyId else freshUuid)
          story.titleEn translation.titleZh theme "processing" "0-6"
          story.synopsisEn translation.synopsisZh
          (if isUuidString storyId then none else some storyId) ::
        (story.pages.map
            (pageInsertEffect (if isUuidString storyId then storyId else freshUuid) translation) ++
          vocabulary.entries.map (fun e =>
            DbEffect.insertVocab (if isUuidString storyId then storyId else freshUuid)
              e.word e.partOfSpeech e.definitionEn e.definitionZh
              e.exampleSentence e.exampleTranslation) ++
          mediaJobEffects (if isUuidString storyId then storyId else freshUuid) translation
            story.pages ++
          (if upstashConfigured then
            [DbEffect.queuePush ((List.range (2 * story.pages.length)).map mintId)]
          else [])) := by
  simp only [persistGenerationResult, if_neg hskip]
  simp [List.cons_append, List.append_assoc]

/-- C10: when a story page has no matching translation page, the
coordinator still emits that page's `story_pages` insert — with
`text_zh` equal to the empty string and the word count computed from
the English text — and the page's pending audio job with an empty
`textZh` in its payload. -/
theorem persistGenerationResult_missingTranslationDefaults
    (skipFlag : Option String) (storyId theme : String) (story : StoryScriptResult)
    (translation : TranslationResult) (vocabulary : VocabularyResult) (freshUuid : String)
    (mintId : Nat → String) (upstashConfigured : Bool) (p : StoryScriptPage)
    (hskip : skipFlag ≠ some "true") (hmem : p ∈ story.pages)
    (hfind : (translation.pages.find? fun tp => tp.pageNumber = p.pageNumber) = none) :
    DbEffect.insertPage (if isUuidString storyId then storyId else freshUuid)
        p.pageNumber p.textEn "" (countWords p.textEn) ∈
      (persistGenerationResult skipFlag storyId theme story translation vocabulary
        freshUuid mintId upstashConfigured).1 ∧
    DbEffect.insertJob (if isUuidString storyId then storyId else freshUuid)
        "audio" "pending" 0 p.pageNumber p.textEn (some "") ∈
      (persistGenerationResult skipFlag storyId theme story translation vocabulary
        freshUuid mintId upstashConfigured).1 := by
  rw [persistGenerationResult_eq skipFlag storyId theme story translation vocabulary
    freshUuid mintId upstashConfigured hskip]
  constructor
  · have hpage : pageInsertEffect (if isUuidString storyId then storyId else freshUuid)
        translation p =
        DbEffect.insertPage (if isUuidString storyId then storyId else freshUuid)
          p.pageNumber p.textEn "" (countWords p.textEn) := by
      simp [pageInsertEffect, hfind]
    exact List.mem_cons_of_mem _
      (List.mem_append_left _ (List.mem_append_left _ (List.mem_append_left _
        (hpage ▸ List.mem_map_of_mem _ hmem))))
  · have haudio := mediaJobEffects_audioMem
      (if isUuidString storyId then storyId else freshUuid) translation story.pages p hmem
    rw [hfind] at haudio
    exact List.mem_cons_of_mem _
      (List.mem_append_left _ (List.mem_append_right _ haudio))

/-- Witness for `persistGenerationResult_missingTranslationDefaults`:
a one-page story persisted with an empty translation. -/
theorem persistGenerationResult_missingTranslationDefaults_witness :
    DbEffect.insertPage (if isUuidString "test-story-1" then "test-story-1" else "uuid-9")
        1 "hello world" "" (countWords "hello world") ∈
      (persistGenerationResult none "test-story-1" "theme"
        ⟨"T", none, [⟨1, "hello world", none⟩]⟩ ⟨"t", none, []⟩ ⟨[]⟩ "uuid-9"
        (fun n => toString n) false).1 ∧
    DbEffect.insertJob (if isUuidString "test-story-1" then "test-story-1" else "uuid-9")
        "audio" "pending" 0 1 "hello world" (some "") ∈
      (persistGenerationResult none "test-story-1" "theme"
        ⟨"T", none, [⟨1, "hello world", none⟩]⟩ ⟨"t", none, []⟩ ⟨[]⟩ "uuid-9"
        (fun n => toString n) false).1 :=
  persistGenerationResult_missingTranslationDefaults none "test-story-1" "theme"
    ⟨"T", none, [⟨1, "hello world", none⟩]⟩ ⟨"t", none, []⟩ ⟨[]⟩ "uuid-9"
    (fun n => toString n) false ⟨1, "hello world", none⟩
    (by decide) (List.mem_cons_self _ _) (by rfl)

end HappyLearner
